import Mathlib

/-
  Verification development for the tafa-off real-time messaging backend.

  The definitions below are a shallow embedding of the TypeScript source:
  the Prisma-backed database rows become Lean structures, each socket
  handler becomes a pure function from a database state (plus the socket
  and a timestamp) to an updated state together with the list of emitted
  socket events, and the HTTP refresh route becomes a function on the
  stored-refresh-token table.  Timestamps are naturals (milliseconds).
-/

namespace TafaOff

/-- Message kind, mirroring the shared MessageType union
    ('text' | 'image' | 'pdf' | 'txt' | 'other_file'). -/
inductive MessageType
  | text
  | image
  | pdf
  | txt
  | otherFile
deriving DecidableEq, Repr

/-- A row of the users table (the fields the socket layer touches). -/
structure UserRow where
  id : String
  isOnline : Bool
  lastSeen : Option Nat
deriving DecidableEq, Repr

/-- A row of the conversations table. -/
structure ConversationRow where
  id : String
  participantOne : String
  participantTwo : String
  lastMessageAt : Option Nat
deriving DecidableEq, Repr

/-- A row of the messages table (the fields the socket layer touches). -/
structure MessageRow where
  id : Nat
  conversationId : String
  senderId : String
  content : Option String
  messageType : MessageType
  fileUrl : Option String
  isRead : Bool
  deliveredAt : Option Nat
  readAt : Option Nat
deriving DecidableEq, Repr

/-- A row of the messageReadReceipt table, keyed by (messageId, userId). -/
structure ReceiptRow where
  messageId : Nat
  userId : String
  readAt : Nat
deriving DecidableEq, Repr

/-- A row of the userActivity table with activityType = TYPING. -/
structure TypingRow where
  userId : String
  conversationId : String
  lastActivity : Nat
deriving DecidableEq, Repr

/-- A row of the friendship table; accepted mirrors status = ACCEPTED. -/
structure FriendshipRow where
  requesterId : String
  addresseeId : String
  accepted : Bool
deriving DecidableEq, Repr

/-- The relational store as seen by the socket handlers. -/
structure DB where
  users : List UserRow
  conversations : List ConversationRow
  messages : List MessageRow
  receipts : List ReceiptRow
  typing : List TypingRow
  friendships : List FriendshipRow
  nextMessageId : Nat
deriving DecidableEq, Repr

/-- Socket events emitted by the handlers.  Events carry their routing
    target: a single socket id, a whole room, or a room excluding the
    emitting socket (socket.to(room).emit). -/
inductive SEvent
  | errorEvt (sid : String) (msg : String)
  | messageReceived (room : String) (msgId : Nat)
  | messageDelivered (sid : String) (msgId : Nat) (deliveredAt : Nat)
  | messageRead (room : String) (msgId : Nat) (userId : String) (readAt : Nat)
  | readReceiptUpdated (room : String) (msgId : Nat) (userId : String) (readAt : Nat)
  | userTyping (room : String) (userId : String) (exceptSid : String)
  | userStoppedTyping (room : String) (convId : String) (userId : String) (exceptSid : String)
  | friendOnline (room : String) (userId : String)
  | friendOffline (room : String) (userId : String) (lastSeen : Nat)
  | userJoinedConversation (room : String) (userId : String) (exceptSid : String)
  | userLeftConversation (room : String) (userId : String) (exceptSid : String)
deriving DecidableEq, Repr

/-- The per-connection state socket.io keeps: the socket id, the
    authenticated user (socket.userId) and the set of joined rooms
    (socket.rooms; it always contains the socket id itself). -/
structure SocketState where
  sid : String
  userId : Option String
  rooms : List String
deriving DecidableEq, Repr

/-- prisma.conversation.findFirst where id = convId and the user is
    participantOne or participantTwo - the participancy check shared by
    the handlers. -/
def findConversationForUser (db : DB) (convId uid : String) :
    Option ConversationRow :=
  db.conversations.find? fun c =>
    c.id == convId && (c.participantOne == uid || c.participantTwo == uid)

/-- The payload of a send_message event (SendMessageRequest).  Absent
    fields of the JSON payload are none; JavaScript treats both an absent
    field and the empty string as falsy. -/
structure SendPayload where
  content : Option String
  messageType : MessageType
  fileUrl : Option String
  fileName : Option String
  fileSize : Option Nat
  fileMimeType : Option String
deriving DecidableEq, Repr

/-- JavaScript falsiness of an optional string: undefined or the empty
    string (the checks !messageData.content, !messageData.fileUrl). -/
def falsyStr : Option String → Bool
  | none => true
  | some s => s.isEmpty

/-- `x || null`: an absent or empty-string field is stored as NULL. -/
def orNull (x : Option String) : Option String :=
  if falsyStr x then none else x

/-- Outcome of the external-store calls made inside one send_message:
    whether prisma.message.create and the following
    prisma.conversation.update succeed.  A false component models the
    awaited call throwing, which lands in the catch block. -/
structure StoreOracle where
  createOk : Bool
  updateOk : Bool
deriving DecidableEq, Repr

/-- The send_message handler (messageHandlers.ts lines 59-140): verify
    participancy, validate the payload keyed on messageType, persist the
    message with deliveredAt stamped now, bump lastMessageAt, then
    broadcast message_received to the room and message_delivered to the
    sender.  Any store failure is caught and reported as a single error
    event to the sender. -/
def sendMessage (db : DB) (st : StoreOracle) (sid uid convId : String)
    (p : SendPayload) (now : Nat) : DB × List SEvent :=
  match findConversationForUser db convId uid with
  | none => (db, [.errorEvt sid "Conversation not found"])
  | some _ =>
    if p.messageType == .text && falsyStr p.content then
      (db, [.errorEvt sid "Text messages must have content"])
    else if p.messageType != .text && falsyStr p.fileUrl then
      (db, [.errorEvt sid "File messages must have a file URL"])
    else if st.createOk = false then
      (db, [.errorEvt sid "Failed to send message"])
    else
      let m : MessageRow :=
        { id := db.nextMessageId
          conversationId := convId
          senderId := uid
          content := orNull p.content
          messageType := p.messageType
          fileUrl := orNull p.fileUrl
          isRead := false
          deliveredAt := some now
          readAt := none }
      let db1 := { db with
        messages := db.messages ++ [m]
        nextMessageId := db.nextMessageId + 1 }
      if st.updateOk = false then
        (db1, [.errorEvt sid "Failed to send message"])
      else
        let db2 := { db1 with
          conversations := db1.conversations.map fun c =>
            if c.id == convId then { c with lastMessageAt := some now } else c }
        (db2, [.messageReceived convId m.id, .messageDelivered sid m.id now])

/-- The where-clause of the receipt upsert: the rows of one
    (messageId, userId) pair. -/
def receiptKey (mid : Nat) (uid : String) : ReceiptRow → Bool :=
  fun r => r.messageId == mid && r.userId == uid

/-- The ReadReceipt table invariant: at most one row per
    (messageId, userId) pair. -/
def receiptsUnique (rs : List ReceiptRow) : Prop :=
  ∀ mid uid, (rs.filter (receiptKey mid uid)).length ≤ 1

/-- prisma.messageReadReceipt.upsert keyed on (messageId, userId):
    update readAt when a row with the key exists, otherwise create one. -/
def upsertReceipt (rs : List ReceiptRow) (mid : Nat) (uid : String)
    (now : Nat) : List ReceiptRow :=
  if rs.any (receiptKey mid uid) then
    rs.map fun r =>
      if receiptKey mid uid r then { r with readAt := now } else r
  else
    rs ++ [{ messageId := mid, userId := uid, readAt := now }]

/-- The mark_read handler (messageHandlers.ts lines 143-215): load the
    message with its conversation; a missing message is an error event;
    a caller who is not a participant or is the sender is silently
    ignored; otherwise set isRead/readAt on the message, upsert the read
    receipt and broadcast message_read and read_receipt_updated to the
    conversation room. -/
def markRead (db : DB) (sid uid : String) (mid : Nat) (now : Nat) :
    DB × List SEvent :=
  match db.messages.find? (fun m => m.id == mid) with
  | none => (db, [.errorEvt sid "Message not found"])
  | some m =>
    match db.conversations.find? (fun c => c.id == m.conversationId) with
    | none => (db, [.errorEvt sid "Failed to mark message as read"])
    | some c =>
      if !(c.participantOne == uid || c.participantTwo == uid)
          || m.senderId == uid then
        (db, [])
      else
        let db1 := { db with
          messages := db.messages.map fun (mm : MessageRow) =>
            if mm.id == mid then { mm with isRead := true, readAt := some now }
            else mm }
        let db2 := { db1 with
          receipts := upsertReceipt db1.receipts mid uid now }
        (db2, [.messageRead c.id mid uid now,
               .readReceiptUpdated c.id mid uid now])

/-- The mark_conversation_read handler (messageHandlers.ts lines
    218-291): verify participancy, collect the unread messages of the
    conversation not sent by the caller, and only when there is at least
    one: mark them read, create the missing receipts (skipDuplicates)
    and emit one message_read per affected message. -/
def markConversationRead (db : DB) (sid uid convId : String) (now : Nat) :
    DB × List SEvent :=
  match findConversationForUser db convId uid with
  | none => (db, [.errorEvt sid "Conversation not found"])
  | some _ =>
    let unread := db.messages.filter fun m =>
      m.conversationId == convId && m.senderId != uid && m.isRead == false
    if unread.isEmpty then
      (db, [])
    else
      let db1 := { db with
        messages := db.messages.map fun (m : MessageRow) =>
          if m.conversationId == convId && m.senderId != uid
              && m.isRead == false then
            { m with isRead := true, readAt := some now }
          else m }
      let db2 := { db1 with
        receipts := unread.foldl (fun (rs : List ReceiptRow) (m : MessageRow) =>
          if rs.any (fun r => r.messageId == m.id && r.userId == uid) then rs
          else rs ++ [{ messageId := m.id, userId := uid, readAt := now }])
          db1.receipts }
      (db2, unread.map fun (m : MessageRow) => .messageRead convId m.id uid now)

/-- The join_conversation handler (messageHandlers.ts lines 9-44):
    verify participancy, then socket.join(conversationId) - the room
    name is the bare conversation id, with no prefix - and notify the
    other subscribers. -/
def joinConversation (db : DB) (sock : SocketState) (uid convId : String) :
    SocketState × List SEvent :=
  match findConversationForUser db convId uid with
  | none => (sock, [.errorEvt sock.sid "Conversation not found"])
  | some _ =>
    ({ sock with
        rooms := if sock.rooms.contains convId then sock.rooms
                 else sock.rooms ++ [convId] },
     [.userJoinedConversation convId uid sock.sid])

/-- The typing_start handler (activityHandlers.ts lines 8-60): verify
    participancy (a non-participant is ignored with no event), upsert
    the (userId, conversationId, TYPING) activity with lastActivity =
    now, and broadcast user_typing to the other room subscribers. -/
def typingStart (db : DB) (sid uid convId : String) (now : Nat) :
    DB × List SEvent :=
  match findConversationForUser db convId uid with
  | none => (db, [])
  | some _ =>
    let typing1 :=
      if db.typing.any (fun t => t.userId == uid && t.conversationId == convId)
      then
        db.typing.map fun (t : TypingRow) =>
          if t.userId == uid && t.conversationId == convId then
            { t with lastActivity := now }
          else t
      else
        db.typing ++ [{ userId := uid, conversationId := convId,
                        lastActivity := now }]
    ({ db with typing := typing1 }, [.userTyping convId uid sid])

/-- The typing_stop handler (activityHandlers.ts lines 63-87): delete
    every (userId, conversationId, TYPING) activity row and broadcast
    user_stopped_typing to the other room subscribers. -/
def typingStop (db : DB) (sid uid convId : String) : DB × List SEvent :=
  ({ db with
      typing := db.typing.filter fun t =>
        !(t.userId == uid && t.conversationId == convId) },
   [.userStoppedTyping convId convId uid sid])

/-- Five minutes in milliseconds. -/
def fiveMinutesMs : Nat := 5 * 60 * 1000

/-- cleanupTypingActivities (activityHandlers.ts lines 224-243): the
    periodic sweep deleting every TYPING row whose lastActivity is older
    than five minutes.  It emits nothing. -/
def cleanupTypingActivities (db : DB) (now : Nat) : DB :=
  { db with
      typing := db.typing.filter fun t =>
        !(t.lastActivity < now - fiveMinutesMs) }

/-- The accepted-friend ids of a user (the friendship.findMany with
    status ACCEPTED on either side, mapped to the other participant). -/
def friendIdsOf (db : DB) (uid : String) : List String :=
  db.friendships.filterMap fun f =>
    if f.accepted then
      if f.requesterId == uid then some f.addresseeId
      else if f.addresseeId == uid then some f.requesterId
      else none
    else none

/-- handleUserOffline (activityHandlers.ts lines 152-221), run on every
    disconnect: mark the user offline with lastSeen = now, delete all
    their TYPING rows, emit friend_offline into each accepted friend
    room user:<friendId>, then emit user_stopped_typing into every
    joined room other than the socket id whose name starts with
    "conversation:" (the conversationId payload strips that prefix). -/
def handleUserOffline (db : DB) (sock : SocketState) (now : Nat) :
    DB × List SEvent :=
  match sock.userId with
  | none => (db, [])
  | some uid =>
    let db1 := { db with
      users := db.users.map fun (u : UserRow) =>
        if u.id == uid then { u with isOnline := false, lastSeen := some now }
        else u }
    let db2 := { db1 with
      typing := db1.typing.filter fun t => !(t.userId == uid) }
    let offlineEvts := (friendIdsOf db uid).map fun fid =>
      SEvent.friendOffline ("user:" ++ fid) uid now
    let conversationRooms := sock.rooms.filter fun r =>
      r != sock.sid && r.startsWith "conversation:"
    let stopEvts := conversationRooms.map fun r =>
      SEvent.userStoppedTyping r (r.replace "conversation:" "") uid sock.sid
    (db2, offlineEvts ++ stopEvts)

/-- The server-side presence state: the store plus the set of live
    authenticated connections (socket id, user id) that socket.io holds. -/
structure PresenceState where
  db : DB
  conns : List (String × String)
deriving DecidableEq, Repr

/-- A successful socket authentication (socketAuth.ts authenticateSocket
    lines 61-68): the user is marked online with lastSeen = now and the
    connection becomes live. -/
def socketConnect (s : PresenceState) (sid uid : String) (now : Nat) :
    PresenceState :=
  { db := { s.db with
      users := s.db.users.map fun (u : UserRow) =>
        if u.id == uid then { u with isOnline := true, lastSeen := some now }
        else u }
    conns := s.conns ++ [(sid, uid)] }

/-- A disconnect: the connection stops being live and handleUserOffline
    runs for the socket. -/
def socketDisconnect (s : PresenceState) (sock : SocketState) (now : Nat) :
    PresenceState × List SEvent :=
  let out := handleUserOffline s.db sock now
  ({ db := out.1, conns := s.conns.filter fun c => c.1 != sock.sid }, out.2)

/-- The stored online flag of a user (false when the row is absent). -/
def userOnline (db : DB) (uid : String) : Bool :=
  match db.users.find? (fun u => u.id == uid) with
  | some u => u.isOnline
  | none => false

/-- The live connection ids of a user. -/
def userConns (s : PresenceState) (uid : String) : List String :=
  (s.conns.filter fun c => c.2 == uid).map fun c => c.1

/-- A row of the refreshToken table: an opaque random token string
    (generateSecureToken) with owner and expiry.  Note the stored string
    is freshly random - it is not the JWT handed to the client. -/
structure RefreshTokenRow where
  id : Nat
  token : String
  userId : String
  expiresAt : Nat
deriving DecidableEq, Repr

/-- The refresh JWT a client presents: its payload carries the userId,
    and validSig models whether jwt.verify accepts the signature,
    issuer and audience; expiresAt is the JWT exp claim (7 days from
    issue). -/
structure RefreshJwt where
  userId : String
  expiresAt : Nat
  validSig : Bool
deriving DecidableEq, Repr

/-- The auth-side store: the refreshToken table plus counters that make
    row ids and fresh random token strings deterministic in the model. -/
structure AuthDB where
  refreshTokens : List RefreshTokenRow
  nextId : Nat
  nextNonce : Nat
deriving DecidableEq, Repr

/-- Result of POST /api/auth/refresh: a fresh pair, or the 401 Invalid
    response. -/
inductive RefreshResult
  | ok (newRefresh : RefreshJwt)
  | invalid
deriving DecidableEq, Repr

/-- verifyRefreshToken (utils/auth.ts): jwt.verify against the refresh
    secret - a pure signature/claims check returning the payload. -/
def verifyRefreshJwt (tok : RefreshJwt) (now : Nat) : Option String :=
  if tok.validSig && now < tok.expiresAt then some tok.userId else none

/-- Seven days in milliseconds, the refresh-token lifetime. -/
def sevenDaysMs : Nat := 7 * 24 * 60 * 60 * 1000

/-- The refresh route (routes/auth.ts lines 195-272): verify the
    presented JWT, then findFirst a stored refreshToken row for the
    decoded userId with expiresAt in the future - the presented token
    string is never compared against the stored row - then delete that
    row and create a fresh one (two separate awaited calls), and return
    a newly signed pair. -/
def refreshRoute (db : AuthDB) (tok : RefreshJwt) (now : Nat) :
    AuthDB × RefreshResult :=
  match verifyRefreshJwt tok now with
  | none => (db, .invalid)
  | some uid =>
    match db.refreshTokens.find? (fun r => r.userId == uid && now < r.expiresAt)
    with
    | none => (db, .invalid)
    | some stored =>
      let afterDelete := db.refreshTokens.filter fun r => r.id != stored.id
      let newRow : RefreshTokenRow :=
        { id := db.nextId
          token := "secure" ++ toString db.nextNonce
          userId := uid
          expiresAt := now + sevenDaysMs }
      ({ refreshTokens := afterDelete ++ [newRow]
         nextId := db.nextId + 1
         nextNonce := db.nextNonce + 1 },
       .ok { userId := uid, expiresAt := now + sevenDaysMs, validSig := true })

/-- Outcome of one socket handshake as the connect_error handler
    classifies it: success, an authentication-class error (the message
    contains Authentication or Invalid access token), or any other
    error. -/
inductive HandshakeOutcome
  | ok
  | authErr
  | otherErr
deriving DecidableEq, Repr

/-- Outcome of one apiClient.refreshAccessToken() call. -/
inductive RotateOutcome
  | rotated
  | failed
deriving DecidableEq, Repr

/-- Observable client-session state accumulated by connectSocket. -/
structure ClientState where
  attempts : Nat
  rotations : Nat
  connected : Bool
  loggedOut : Bool
deriving DecidableEq, Repr

/-- The connectSocket retry loop (socket-provider.tsx lines 81-98),
    driven by an oracle listing the outcome of each handshake attempt
    together with the outcome the rotate call would have there.  On an
    authentication-class connect_error the handler always calls
    refreshAccessToken(): when the rotate succeeds it disconnects and
    schedules a fresh connectSocket (which installs a brand-new
    connect_error handler, so the cycle repeats without any counter);
    only a failed rotate calls logout().  A non-auth connect_error
    triggers no retry, and a successful connect sets connected. -/
def connectSocketLoop :
    List (HandshakeOutcome × RotateOutcome) → ClientState → ClientState
  | [], s => s
  | (h, r) :: rest, s =>
    let s1 := { s with attempts := s.attempts + 1 }
    match h with
    | .ok => { s1 with connected := true }
    | .otherErr => s1
    | .authErr =>
      match r with
      | .rotated => connectSocketLoop rest { s1 with rotations := s1.rotations + 1 }
      | .failed => { s1 with rotations := s1.rotations + 1, loggedOut := true }

/-- Concrete auth store holding one valid refresh-token row for u1. -/
def authStore1 : AuthDB :=
  { refreshTokens := [{ id := 1, token := "s0", userId := "u1", expiresAt := 1000000 }]
    nextId := 2, nextNonce := 0 }

/-- The refresh JWT u1 holds, well-signed and unexpired. -/
def clientRefreshJwt : RefreshJwt :=
  { userId := "u1", expiresAt := 700000, validSig := true }

/-- Concrete store: u1 talks with u2 in r1 and with u3 in r2, is friends
    with u2, and has an active typing row in r1. -/
def twoRoomDb : DB :=
  { users := [{ id := "u1", isOnline := true, lastSeen := none },
              { id := "u2", isOnline := true, lastSeen := none },
              { id := "u3", isOnline := true, lastSeen := none }]
    conversations := [{ id := "r1", participantOne := "u1", participantTwo := "u2", lastMessageAt := none },
                      { id := "r2", participantOne := "u1", participantTwo := "u3", lastMessageAt := none }]
    messages := []
    receipts := []
    typing := [{ userId := "u1", conversationId := "r1", lastActivity := 100 }]
    friendships := [{ requesterId := "u1", addresseeId := "u2", accepted := true }]
    nextMessageId := 1 }

/-- The connection of u1 after joining conversations r1 and r2: its
    room set is the socket id, the personal room and the two bare
    conversation ids. -/
def twoRoomSock : SocketState :=
  (joinConversation twoRoomDb
    (joinConversation twoRoomDb
      { sid := "s1", userId := some "u1", rooms := ["s1", "user:u1"] }
      "u1" "r1").1
    "u1" "r2").1

/-- Concrete presence state: u1 is online holding two live connections. -/
def twoConnPresence : PresenceState :=
  { db := { users := [{ id := "u1", isOnline := true, lastSeen := none }]
            conversations := [], messages := [], receipts := [], typing := []
            friendships := [], nextMessageId := 1 }
    conns := [("s1", "u1"), ("s2", "u1")] }

/-- The socket behind connection s1 of u1. -/
def connOneSock : SocketState :=
  { sid := "s1", userId := some "u1", rooms := ["s1", "user:u1"] }

/-- Concrete store with one unread text message from u1 to u2 in c1. -/
def oneMessageDb : DB :=
  { users := [{ id := "u1", isOnline := true, lastSeen := none },
              { id := "u2", isOnline := true, lastSeen := none }]
    conversations := [{ id := "c1", participantOne := "u1", participantTwo := "u2", lastMessageAt := none }]
    messages := [{ id := 1, conversationId := "c1", senderId := "u1",
                   content := some "hi", messageType := .text, fileUrl := none,
                   isRead := false, deliveredAt := some 10, readAt := none }]
    receipts := [], typing := [], friendships := [], nextMessageId := 2 }

/-- A store like oneMessageDb whose only message is already read, so a
    mark_conversation_read by u2 finds nothing unread. -/
def allReadDb : DB :=
  { oneMessageDb with
      messages := [{ id := 1, conversationId := "c1", senderId := "u1",
                     content := some "hi", messageType := .text, fileUrl := none,
                     isRead := true, deliveredAt := some 10, readAt := some 20 }] }

/-- map commutes with find? when the mapped function preserves the
    predicate. -/
theorem find?_map_of_pred {α : Type} (f : α → α) (p : α → Bool)
    (hp : ∀ a, p (f a) = p a) :
    ∀ l : List α, (l.map f).find? p = (l.find? p).map f
  | [] => rfl
  | a :: l => by
    simp only [List.map_cons, List.find?]
    rw [hp a]
    cases h : p a
    · exact find?_map_of_pred f p hp l
    · rfl

/-- map commutes with filter when the mapped function preserves the
    predicate. -/
theorem filter_map_of_pred {α : Type} (f : α → α) (p : α → Bool)
    (hp : ∀ a, p (f a) = p a) :
    ∀ l : List α, (l.map f).filter p = (l.filter p).map f
  | [] => rfl
  | a :: l => by
    simp only [List.map_cons, List.filter]
    rw [hp a]
    cases h : p a
    · exact filter_map_of_pred f p hp l
    · simp only [List.map_cons, filter_map_of_pred f p hp l]

/-- C1: the refresh route accepts the same original refresh token twice.
    The first rotation deletes the stored row and creates a fresh one,
    but the lookup is by userId only - the presented token is never
    compared with the stored record - so a second call presenting the
    same original token finds the row created by the first call and
    succeeds instead of failing with Invalid (HTTP 401); the
    delete-and-create is also two separate store calls, not one
    transaction. -/
theorem refresh_reuse_accepted :
    (refreshRoute authStore1 clientRefreshJwt 0).2 ≠ RefreshResult.invalid ∧
    (refreshRoute (refreshRoute authStore1 clientRefreshJwt 0).1
        clientRefreshJwt 1).2 ≠ RefreshResult.invalid := by
  decide

/-- C2 counterexample: u1's connection is subscribed to rooms r1 and r2
    (joined under their bare conversation ids) and has an active typing
    row in r1, yet handleUserOffline emits only the friend_offline
    broadcast - no user_left_conversation for r1 or r2 and no
    user_stopped_typing for r1, because the cleanup filters rooms by a
    "conversation:" prefix that join_conversation never applies. -/
theorem disconnect_cascade_missing_broadcasts :
    twoRoomSock.rooms = ["s1", "user:u1", "r1", "r2"] ∧
    twoRoomDb.typing = [{ userId := "u1", conversationId := "r1", lastActivity := 100 }] ∧
    (handleUserOffline twoRoomDb twoRoomSock 200).2 =
      [SEvent.friendOffline "user:u2" "u1" 200] := by
  decide

/-- C2 (amended): on disconnect of an authenticated connection whose
    room names do not carry the "conversation:" prefix (which is every
    room join_conversation creates), the cleanup cascade emits exactly
    the friend_offline broadcasts to the accepted friends and deletes
    all of the user's typing rows; it emits no leave broadcast and no
    stop-typing broadcast to any room. -/
theorem disconnect_cascade_actual (db : DB) (sock : SocketState)
    (uid : String) (now : Nat)
    (huid : sock.userId = some uid)
    (hrooms : ∀ r ∈ sock.rooms, r.startsWith "conversation:" = false) :
    (handleUserOffline db sock now).2 =
      (friendIdsOf db uid).map
        (fun fid => SEvent.friendOffline ("user:" ++ fid) uid now) ∧
    ((handleUserOffline db sock now).1).typing =
      db.typing.filter (fun t => !(t.userId == uid)) := by
  have hfilter : (sock.rooms.filter fun r =>
      r != sock.sid && r.startsWith "conversation:") = [] := by
    rw [List.filter_eq_nil_iff]
    intro r hr
    simp [hrooms r hr]
  constructor
  · simp only [handleUserOffline, huid, hfilter, List.map_nil, List.append_nil]
  · simp only [handleUserOffline, huid]

/-- C2 witness. -/
theorem disconnect_cascade_actual_witness :
    (handleUserOffline twoRoomDb twoRoomSock 200).2 =
      (friendIdsOf twoRoomDb "u1").map
        (fun fid => SEvent.friendOffline ("user:" ++ fid) "u1" 200) ∧
    ((handleUserOffline twoRoomDb twoRoomSock 200).1).typing =
      twoRoomDb.typing.filter (fun t => !(t.userId == "u1")) :=
  disconnect_cascade_actual twoRoomDb twoRoomSock "u1" 200 (by decide)
    (by decide)

/-- C3 counterexample: two consecutive authentication-rejected
    handshakes with successful rotations make the client rotate twice
    and retry twice without ever logging out, contradicting the claimed
    single rotate-and-retry followed by a forced logout. -/
theorem reconnect_retries_twice_without_logout :
    connectSocketLoop [(.authErr, .rotated), (.authErr, .rotated)]
        { attempts := 0, rotations := 0, connected := false, loggedOut := false } =
      { attempts := 2, rotations := 2, connected := false, loggedOut := false } := by
  decide

/-- C3 (amended): on every authentication-rejected handshake the client
    performs one rotation and, when the rotation succeeds, retries the
    handshake - with no bound on the number of such cycles (each retry
    installs a fresh error handler); a full logout is forced exactly
    when a rotation attempt itself fails, never merely because the
    retried handshake failed again. -/
theorem reconnect_unbounded_retry_logout_on_rotate_failure
    (s : ClientState) : ∀ n : Nat,
    connectSocketLoop (List.replicate n (.authErr, .rotated)) s =
      { s with attempts := s.attempts + n, rotations := s.rotations + n } ∧
    (connectSocketLoop
        (List.replicate n (.authErr, .rotated) ++ [(.authErr, .failed)])
        s).loggedOut = true := by
  intro n
  induction n generalizing s with
  | zero => exact ⟨rfl, rfl⟩
  | succ k ih =>
    rw [List.replicate_succ, List.cons_append]
    have h1 := ih { attempts := s.attempts + 1, rotations := s.rotations + 1,
                    connected := s.connected, loggedOut := s.loggedOut }
    constructor
    · show connectSocketLoop (List.replicate k (.authErr, .rotated))
        { attempts := s.attempts + 1, rotations := s.rotations + 1,
          connected := s.connected, loggedOut := s.loggedOut } = _
      rw [h1.1]
      simp only [ClientState.mk.injEq]
      exact ⟨by omega, by omega, trivial, trivial⟩
    · exact h1.2

/-- C4 counterexample: u1 holds two live connections and is online, so
    the invariant holds before; after one of the two connections
    disconnects, the other is still live yet the user is marked
    offline - the online flag is not "connection set non-empty". -/
theorem presence_invariant_violated :
    userOnline twoConnPresence.db "u1" =
      !(userConns twoConnPresence "u1").isEmpty ∧
    userConns (socketDisconnect twoConnPresence connOneSock 50).1 "u1" = ["s2"] ∧
    userOnline (socketDisconnect twoConnPresence connOneSock 50).1.db "u1" = false := by
  decide

/-- C4 (amended): the stored online flag follows the most recent
    connect or disconnect event rather than the connection set: a
    successful socket authentication marks the user online, and every
    disconnect marks the user offline unconditionally, even when other
    live connections of the same user remain. -/
theorem presence_flag_follows_last_event (s : PresenceState)
    (sock : SocketState) (uid sid : String) (now : Nat)
    (huid : sock.userId = some uid)
    (hexists : (s.db.users.find? (fun u => u.id == uid)).isSome = true) :
    userOnline (socketDisconnect s sock now).1.db uid = false ∧
    userOnline (socketConnect s sid uid now).db uid = true := by
  have hoff := find?_map_of_pred
    (fun (u : UserRow) =>
      if u.id == uid then { u with isOnline := false, lastSeen := some now } else u)
    (fun u => u.id == uid)
    (fun a => by by_cases h : (a.id == uid) = true <;> simp [h])
  have hon := find?_map_of_pred
    (fun (u : UserRow) =>
      if u.id == uid then { u with isOnline := true, lastSeen := some now } else u)
    (fun u => u.id == uid)
    (fun a => by by_cases h : (a.id == uid) = true <;> simp [h])
  constructor
  · show userOnline (handleUserOffline s.db sock now).1 uid = false
    simp only [handleUserOffline, huid, userOnline]
    rw [hoff s.db.users]
    cases hfind : s.db.users.find? (fun u => u.id == uid) with
    | none => rfl
    | some u =>
      have hu : u.id = uid := by
        have h2 := List.find?_some hfind
        simpa using h2
      simp [hu]
  · simp only [socketConnect, userOnline]
    rw [hon s.db.users]
    cases hfind : s.db.users.find? (fun u => u.id == uid) with
    | none => rw [hfind] at hexists; simp at hexists
    | some u =>
      have hu : u.id = uid := by
        have h2 := List.find?_some hfind
        simpa using h2
      simp [hu]

/-- C4 witness. -/
theorem presence_flag_follows_last_event_witness :
    userOnline (socketDisconnect twoConnPresence connOneSock 50).1.db "u1" = false ∧
    userOnline (socketConnect twoConnPresence "s3" "u1" 60).db "u1" = true :=
  presence_flag_follows_last_event twoConnPresence connOneSock "u1" "s3" 50
    (by decide) (by decide)

/-- C5: send_message validates the payload keyed on the declared message
    kind: a text message whose content is absent or empty is rejected
    with the InvalidContent error event and causes no persistence and no
    broadcast (whatever the store would have done), while a non-text
    message carrying a file reference and no content is accepted - it is
    persisted and broadcast.  The two requirements are mutually
    exclusive, each guarded by the declared kind. -/
theorem send_validation_keyed_on_kind (db : DB) (c : ConversationRow)
    (st : StoreOracle) (sid uid convId : String) (now : Nat)
    (hconv : findConversationForUser db convId uid = some c) :
    ∀ p : SendPayload,
      (p.messageType = .text → falsyStr p.content = true →
        sendMessage db st sid uid convId p now =
          (db, [.errorEvt sid "Text messages must have content"])) ∧
      (p.messageType ≠ .text → falsyStr p.fileUrl = false →
        (sendMessage db { createOk := true, updateOk := true }
            sid uid convId p now).2 =
          [.messageReceived convId db.nextMessageId,
           .messageDelivered sid db.nextMessageId now] ∧
        (sendMessage db { createOk := true, updateOk := true }
            sid uid convId p now).1.messages =
          db.messages ++
            [{ id := db.nextMessageId, conversationId := convId,
               senderId := uid, content := orNull p.content,
               messageType := p.messageType, fileUrl := orNull p.fileUrl,
               isRead := false, deliveredAt := some now, readAt := none }]) := by
  intro p
  constructor
  · intro hkind hcontent
    simp only [sendMessage, hconv, hkind, hcontent]
    simp
  · intro hkind hfile
    have hk : (p.messageType == MessageType.text) = false := by
      simpa using hkind
    simp only [sendMessage, hconv, hk, hfile]
    simp

/-- C5 witness. -/
theorem send_validation_keyed_on_kind_witness :
    (sendMessage oneMessageDb { createOk := false, updateOk := false }
        "s1" "u1" "c1"
        { content := some "", messageType := .text, fileUrl := none,
          fileName := none, fileSize := none, fileMimeType := none } 5 =
      (oneMessageDb, [.errorEvt "s1" "Text messages must have content"])) ∧
    ((sendMessage oneMessageDb { createOk := true, updateOk := true }
        "s1" "u1" "c1"
        { content := none, messageType := .image, fileUrl := some "https://x/f.png",
          fileName := none, fileSize := none, fileMimeType := none } 5).2 =
      [.messageReceived "c1" 2, .messageDelivered "s1" 2 5]) := by
  refine ⟨?_, ?_⟩
  · exact (send_validation_keyed_on_kind oneMessageDb
      { id := "c1", participantOne := "u1", participantTwo := "u2", lastMessageAt := none }
      { createOk := false, updateOk := false } "s1" "u1" "c1" 5 (by decide)
      { content := some "", messageType := .text, fileUrl := none,
        fileName := none, fileSize := none, fileMimeType := none }).1 rfl (by decide)
  · exact ((send_validation_keyed_on_kind oneMessageDb
      { id := "c1", participantOne := "u1", participantTwo := "u2", lastMessageAt := none }
      { createOk := false, updateOk := false } "s1" "u1" "c1" 5 (by decide)
      { content := none, messageType := .image, fileUrl := some "https://x/f.png",
        fileName := none, fileSize := none, fileMimeType := none }).2
      (by decide) (by decide)).1

/-- C6: when a send_message passes the participancy and payload checks
    but a persistence step fails - the message create itself, or the
    following conversation update - the handler emits no
    message_received broadcast and no message_delivered acknowledgement:
    the only emitted event is a single error event addressed to the
    originating connection. -/
theorem send_persistence_failure_aborts (db : DB) (c : ConversationRow)
    (st : StoreOracle) (sid uid convId : String) (p : SendPayload) (now : Nat)
    (hconv : findConversationForUser db convId uid = some c)
    (htext : (p.messageType == MessageType.text && falsyStr p.content) = false)
    (hfile : (p.messageType != MessageType.text && falsyStr p.fileUrl) = false)
    (hfail : st.createOk = false ∨ st.updateOk = false) :
    (sendMessage db st sid uid convId p now).2 =
      [.errorEvt sid "Failed to send message"] := by
  simp only [sendMessage, hconv, htext, hfile]
  rcases hfail with h | h
  · simp [h]
  · cases hc : st.createOk with
    | false => simp
    | true => simp [hc, h]

/-- C6 witness. -/
theorem send_persistence_failure_aborts_witness :
    (sendMessage oneMessageDb { createOk := false, updateOk := true }
        "s1" "u1" "c1"
        { content := some "hello", messageType := .text, fileUrl := none,
          fileName := none, fileSize := none, fileMimeType := none } 5).2 =
      [.errorEvt "s1" "Failed to send message"] :=
  send_persistence_failure_aborts oneMessageDb
    { id := "c1", participantOne := "u1", participantTwo := "u2", lastMessageAt := none }
    { createOk := false, updateOk := true } "s1" "u1" "c1"
    { content := some "hello", messageType := .text, fileUrl := none,
      fileName := none, fileSize := none, fileMimeType := none } 5
    (by decide) (by decide) (by decide) (Or.inl rfl)

/-- The receipt update written by the upsert preserves every key
    predicate: it only changes readAt. -/
theorem receiptKey_after_update (mid : Nat) (uid : String) (now : Nat)
    (mid2 : Nat) (uid2 : String) (r : ReceiptRow) :
    receiptKey mid2 uid2
        (if receiptKey mid uid r then { r with readAt := now } else r) =
      receiptKey mid2 uid2 r := by
  by_cases h : receiptKey mid uid r = true
  · have h2 : r.messageId = mid ∧ r.userId = uid := by
      simpa [receiptKey] using h
    simp [receiptKey, h2.1, h2.2]
  · have h2 : ¬(r.messageId = mid ∧ r.userId = uid) := by
      simpa [receiptKey] using h
    simp [receiptKey, h2]

/-- When no row carries the key, its filter is empty. -/
theorem filter_key_nil_of_any_false (rs : List ReceiptRow) (mid : Nat)
    (uid : String) (h : rs.any (receiptKey mid uid) = false) :
    rs.filter (receiptKey mid uid) = [] := by
  rw [List.filter_eq_nil_iff]
  exact List.any_eq_false.1 h

/-- After an upsert, the rows of the upserted key are exactly the single
    row carrying the new readAt - provided the table held at most one
    row of that key before. -/
theorem filter_key_upsertReceipt (rs : List ReceiptRow) (mid : Nat)
    (uid : String) (now : Nat)
    (h : (rs.filter (receiptKey mid uid)).length ≤ 1) :
    (upsertReceipt rs mid uid now).filter (receiptKey mid uid) =
      [{ messageId := mid, userId := uid, readAt := now }] := by
  unfold upsertReceipt
  cases hany : rs.any (receiptKey mid uid) with
  | false =>
    simp only [Bool.false_eq_true, if_false]
    rw [List.filter_append, filter_key_nil_of_any_false rs mid uid hany]
    simp [receiptKey]
  | true =>
    simp only [if_true]
    rw [filter_map_of_pred _ _ (receiptKey_after_update mid uid now mid uid)]
    obtain ⟨x, hx, hkx⟩ := List.any_eq_true.1 hany
    have hne : rs.filter (receiptKey mid uid) ≠ [] := by
      intro hnil
      have := List.filter_eq_nil_iff.1 hnil x hx
      exact this hkx
    have hlen : (rs.filter (receiptKey mid uid)).length = 1 := by
      have h0 := List.length_pos.2 hne
      omega
    obtain ⟨a, ha⟩ := List.length_eq_one.1 hlen
    have hka : receiptKey mid uid a = true := by
      have hmem : a ∈ rs.filter (receiptKey mid uid) := by
        rw [ha]; exact List.mem_cons_self a []
      exact (List.mem_filter.1 hmem).2
    obtain ⟨am, au, ar⟩ := a
    have h2 : am = mid ∧ au = uid := by simpa [receiptKey] using hka
    rw [ha]
    simp [receiptKey, h2.1, h2.2]

/-- An upsert preserves the at-most-one-row-per-key invariant. -/
theorem upsertReceipt_preserves_unique (rs : List ReceiptRow) (mid : Nat)
    (uid : String) (now : Nat) (h : receiptsUnique rs) :
    receiptsUnique (upsertReceipt rs mid uid now) := by
  intro mid2 uid2
  unfold upsertReceipt
  cases hany : rs.any (receiptKey mid uid) with
  | false =>
    simp only [Bool.false_eq_true, if_false]
    rw [List.filter_append]
    by_cases hk : receiptKey mid2 uid2 { messageId := mid, userId := uid, readAt := now } = true
    · have hsame : mid2 = mid ∧ uid2 = uid := by
        simp [receiptKey] at hk
        exact ⟨hk.1.symm, hk.2.symm⟩
      rw [hsame.1, hsame.2, filter_key_nil_of_any_false rs mid uid hany]
      simp [receiptKey]
    · have : List.filter (receiptKey mid2 uid2)
          [{ messageId := mid, userId := uid, readAt := now }] = [] := by
        simp [List.filter, hk]
      rw [this, List.append_nil]
      exact h mid2 uid2
  | true =>
    simp only [if_true]
    rw [filter_map_of_pred _ _ (receiptKey_after_update mid uid now mid2 uid2)]
    rw [List.length_map]
    exact h mid2 uid2

/-- One authorized mark_read call (message found, caller a participant
    and not the sender) updates the message, upserts the receipt and
    broadcasts the two read events. -/
theorem markRead_authorized (db : DB) (m : MessageRow) (c : ConversationRow)
    (sid uid : String) (mid t : Nat)
    (hm : db.messages.find? (fun x => x.id == mid) = some m)
    (hc : db.conversations.find? (fun x => x.id == m.conversationId) = some c)
    (hpart : (c.participantOne == uid || c.participantTwo == uid) = true)
    (hns : (m.senderId == uid) = false) :
    markRead db sid uid mid t =
      ({ db with
          messages := db.messages.map fun mm =>
            if mm.id == mid then { mm with isRead := true, readAt := some t }
            else mm
          receipts := upsertReceipt db.receipts mid uid t },
       [.messageRead c.id mid uid t, .readReceiptUpdated c.id mid uid t]) := by
  have hcond : (!(c.participantOne == uid || c.participantTwo == uid)
      || (m.senderId == uid)) = false := by
    rw [hpart, hns]; rfl
  simp only [markRead, hm, hc, hcond]
  simp

/-- C7: mark_read is idempotent per (message, reader) pair.  With the
    caller a participant who is not the sender and the receipt table
    holding at most one row per pair, a second mark_read on the same
    pair succeeds without any error event (it emits the two read
    events), leaves exactly one ReadReceipt row for the pair carrying
    the readAt of the later call, and preserves the at-most-one-row-per-
    pair invariant of the whole table. -/
theorem mark_read_idempotent_per_pair (db : DB) (m : MessageRow)
    (c : ConversationRow) (sid uid : String) (mid t1 t2 : Nat)
    (hm : db.messages.find? (fun x => x.id == mid) = some m)
    (hc : db.conversations.find? (fun x => x.id == m.conversationId) = some c)
    (hpart : (c.participantOne == uid || c.participantTwo == uid) = true)
    (hns : (m.senderId == uid) = false)
    (huniq : receiptsUnique db.receipts) :
    (markRead (markRead db sid uid mid t1).1 sid uid mid t2).2 =
      [.messageRead c.id mid uid t2, .readReceiptUpdated c.id mid uid t2] ∧
    ((markRead (markRead db sid uid mid t1).1 sid uid mid t2).1).receipts.filter
        (receiptKey mid uid) =
      [{ messageId := mid, userId := uid, readAt := t2 }] ∧
    receiptsUnique
      ((markRead (markRead db sid uid mid t1).1 sid uid mid t2).1).receipts := by
  have hmtrue : m.id = mid := by simpa using List.find?_some hm
  have hstep1 := markRead_authorized db m c sid uid mid t1 hm hc hpart hns
  have hm1 : ((markRead db sid uid mid t1).1).messages.find? (fun x => x.id == mid)
      = some { m with isRead := true, readAt := some t1 } := by
    rw [hstep1]
    show (db.messages.map fun mm =>
        if mm.id == mid then { mm with isRead := true, readAt := some t1 }
        else mm).find? (fun x => x.id == mid) = _
    rw [find?_map_of_pred _ _
      (fun a => by by_cases h : (a.id == mid) = true <;> simp [h]), hm]
    simp [hmtrue]
  have hc1 : ((markRead db sid uid mid t1).1).conversations.find?
      (fun x => x.id ==
        (MessageRow.conversationId { m with isRead := true, readAt := some t1 }))
      = some c := by
    rw [hstep1]; exact hc
  have hstep2 := markRead_authorized (markRead db sid uid mid t1).1
    { m with isRead := true, readAt := some t1 } c sid uid mid t2 hm1 hc1 hpart
    (by exact hns)
  have hrec1 : ((markRead db sid uid mid t1).1).receipts =
      upsertReceipt db.receipts mid uid t1 := by
    rw [hstep1]
  refine ⟨?_, ?_, ?_⟩
  · rw [hstep2]
  · rw [hstep2]
    show (upsertReceipt ((markRead db sid uid mid t1).1).receipts mid uid
        t2).filter (receiptKey mid uid) = _
    rw [hrec1]
    exact filter_key_upsertReceipt _ mid uid t2
      (upsertReceipt_preserves_unique db.receipts mid uid t1 huniq mid uid)
  · rw [hstep2]
    show receiptsUnique
      (upsertReceipt ((markRead db sid uid mid t1).1).receipts mid uid t2)
    rw [hrec1]
    exact upsertReceipt_preserves_unique _ mid uid t2
      (upsertReceipt_preserves_unique db.receipts mid uid t1 huniq)

/-- C7 witness: u2 reads the one unread message of u1 twice. -/
theorem mark_read_idempotent_per_pair_witness :
    (markRead (markRead oneMessageDb "s2" "u2" 1 30).1 "s2" "u2" 1 40).2 =
      [.messageRead "c1" 1 "u2" 40, .readReceiptUpdated "c1" 1 "u2" 40] ∧
    ((markRead (markRead oneMessageDb "s2" "u2" 1 30).1 "s2" "u2" 1 40).1).receipts.filter
        (receiptKey 1 "u2") =
      [{ messageId := 1, userId := "u2", readAt := 40 }] ∧
    receiptsUnique
      ((markRead (markRead oneMessageDb "s2" "u2" 1 30).1 "s2" "u2" 1 40).1).receipts :=
  mark_read_idempotent_per_pair oneMessageDb
    { id := 1, conversationId := "c1", senderId := "u1", content := some "hi",
      messageType := .text, fileUrl := none, isRead := false,
      deliveredAt := some 10, readAt := none }
    { id := "c1", participantOne := "u1", participantTwo := "u2",
      lastMessageAt := none }
    "s2" "u2" 1 30 40 (by decide) (by decide) (by decide) (by decide)
    (by intro mid uid; simp [oneMessageDb])

/-- C8 counterexample: the sender u1 calls mark_read on their own
    message; the handler returns with no state change and - contrary to
    the claimed SelfRead failure - emits no event at all: the request is
    silently ignored rather than failed. -/
theorem self_read_not_reported :
    markRead oneMessageDb "s1" "u1" 1 7 = (oneMessageDb, []) := by
  decide

/-- C8 (amended): a mark_read call by the original sender of the
    message is silently ignored: the store is unchanged - no ReadReceipt
    is created or updated and the message read state is untouched - and
    no event of any kind is emitted, neither a read broadcast nor a
    SelfRead error. -/
theorem self_read_silent_noop (db : DB) (m : MessageRow)
    (c : ConversationRow) (sid uid : String) (mid now : Nat)
    (hm : db.messages.find? (fun x => x.id == mid) = some m)
    (hc : db.conversations.find? (fun x => x.id == m.conversationId) = some c)
    (hsender : m.senderId = uid) :
    markRead db sid uid mid now = (db, []) := by
  have hcond : (!(c.participantOne == uid || c.participantTwo == uid)
      || (m.senderId == uid)) = true := by
    simp [hsender]
  simp only [markRead, hm, hc, hcond]
  simp

/-- C8 witness. -/
theorem self_read_silent_noop_witness :
    markRead oneMessageDb "s2" "u1" 1 9 = (oneMessageDb, []) :=
  self_read_silent_noop oneMessageDb
    { id := 1, conversationId := "c1", senderId := "u1", content := some "hi",
      messageType := .text, fileUrl := none, isRead := false,
      deliveredAt := some 10, readAt := none }
    { id := "c1", participantOne := "u1", participantTwo := "u2",
      lastMessageAt := none }
    "s2" "u1" 1 9 (by decide) (by decide) rfl

/-- The periodic sweep is the identity on a store with no typing rows. -/
theorem cleanup_of_empty_typing (d : DB) (t : Nat) (h : d.typing = []) :
    cleanupTypingActivities d t = d := by
  unfold cleanupTypingActivities
  rw [h]
  show { d with typing := ([] : List TypingRow) } = d
  rw [← h]

/-- C9: for a participant of the conversation, typing_start immediately
    followed by typing_stop on the same (user, conversation) pair leaves
    no TypingState entry (starting from a store with no typing rows, the
    typing table is empty again), and a subsequent periodic sweep over
    that state deletes nothing. -/
theorem typing_roundtrip_clean (db : DB) (c : ConversationRow)
    (sid uid convId : String) (t1 tsweep : Nat)
    (hconv : findConversationForUser db convId uid = some c)
    (hempty : db.typing = []) :
    ((typingStop (typingStart db sid uid convId t1).1 sid uid convId).1).typing
      = [] ∧
    cleanupTypingActivities
        ((typingStop (typingStart db sid uid convId t1).1 sid uid convId).1)
        tsweep =
      (typingStop (typingStart db sid uid convId t1).1 sid uid convId).1 := by
  have hstart : (typingStart db sid uid convId t1).1 =
      { db with typing :=
          [{ userId := uid, conversationId := convId, lastActivity := t1 }] } := by
    simp only [typingStart, hconv]
    simp [hempty]
  have hstop : ((typingStop (typingStart db sid uid convId t1).1 sid uid
      convId).1).typing = [] := by
    show ((typingStart db sid uid convId t1).1).typing.filter
      (fun t => !(t.userId == uid && t.conversationId == convId)) = []
    rw [hstart]
    simp
  exact ⟨hstop, cleanup_of_empty_typing _ tsweep hstop⟩

/-- C9 witness. -/
theorem typing_roundtrip_clean_witness :
    ((typingStop (typingStart oneMessageDb "s1" "u1" "c1" 100).1
        "s1" "u1" "c1").1).typing = [] ∧
    cleanupTypingActivities
        ((typingStop (typingStart oneMessageDb "s1" "u1" "c1" 100).1
          "s1" "u1" "c1").1) 900000 =
      (typingStop (typingStart oneMessageDb "s1" "u1" "c1" 100).1
        "s1" "u1" "c1").1 :=
  typing_roundtrip_clean oneMessageDb
    { id := "c1", participantOne := "u1", participantTwo := "u2",
      lastMessageAt := none }
    "s1" "u1" "c1" 100 900000 (by decide) rfl

/-- C10: a mark_conversation_read call by a participant of a
    conversation holding no message that is both unread and sent by
    someone else is a complete no-op: the store is unchanged and no
    event is emitted, not even an error event. -/
theorem mark_conversation_read_noop_when_no_unread (db : DB)
    (c : ConversationRow) (sid uid convId : String) (now : Nat)
    (hconv : findConversationForUser db convId uid = some c)
    (hnone : db.messages.filter (fun m =>
        m.conversationId == convId && m.senderId != uid && m.isRead == false)
      = []) :
    markConversationRead db sid uid convId now = (db, []) := by
  simp only [markConversationRead, hconv, hnone]
  simp

/-- C10 witness: u2 marks c1 read while its only message is already
    read. -/
theorem mark_conversation_read_noop_when_no_unread_witness :
    markConversationRead allReadDb "s2" "u2" "c1" 77 = (allReadDb, []) :=
  mark_conversation_read_noop_when_no_unread allReadDb
    { id := "c1", participantOne := "u1", participantTwo := "u2",
      lastMessageAt := none }
    "s2" "u2" "c1" 77 (by decide) (by decide)

end TafaOff
